import Mathlib

/-!
# Formal model of `cram` (compression benchmarking tool)

A shallow embedding of the repository: the `Compressor` adapters of
`src/compressor.rs` (Brotli, Gzip, Lz4, Snappy, Zstd) and the dispatch
logic of `src/main.rs`.

The five codec libraries (`brotli`, `libflate`, `lz4_flex`, `snap`,
`zstd`) and the `base64` crate are external dependencies whose sources
are not part of the repository; they are modelled abstractly as
structures of pure functions, with the contracts the specification
states for them (round-trip fidelity, determinism, the Lz4 size
header) taken as hypotheses where a theorem needs them.  A Rust call
that ends in `.unwrap()` is modelled as `Option`-valued: `none` is the
panic.  Everything else is translated directly from the source.
-/

namespace Cram

/-- Byte sequences (`Vec<u8>` / `&[u8]`), as lists of naturals. -/
abbrev Bytes := List Nat

/-! ## External codec libraries (modelled) -/

/-- Modelled from the spec: the external `brotli` crate.
`encode bufferSize quality lgwin input` is the net effect of streaming
`input` through `brotli::CompressorWriter::new(_, bufferSize, quality, lgwin)`
and finishing it; `decode bufferSize input` is the net effect of reading
`brotli::Decompressor::new(input, bufferSize)` to the end.  `none` models a
codec error (a Rust panic through `.unwrap()`). -/
structure BrotliLib where
  encode : Nat → Nat → Nat → Bytes → Option Bytes
  decode : Nat → Bytes → Option Bytes

/-- Modelled from the spec: the external `libflate` gzip codec.
`encode` is `Encoder::new` + stream-copy + `finish().into_result()`;
`decode` is `Decoder::new` + stream-copy.  `none` models a panic. -/
structure GzipLib where
  encode : Bytes → Option Bytes
  decode : Bytes → Option Bytes

/-- Modelled from the spec: the block layer of the external `lz4_flex`
crate.  `block` compresses a raw buffer (total: `compress_prepend_size`
has no failure path); `unblock n payload` decompresses `payload` whose
uncompressed size was declared to be `n`, failing with `none` on a
malformed payload. -/
structure Lz4Lib where
  block : Bytes → Bytes
  unblock : Nat → Bytes → Option Bytes

/-- Modelled from the spec: the external `snap` frame codec.
`encode` is `snap::write::FrameEncoder` + stream-copy + `into_inner()`;
`decode` is `snap::read::FrameDecoder` + stream-copy. -/
structure SnappyLib where
  encode : Bytes → Option Bytes
  decode : Bytes → Option Bytes

/-- Modelled from the spec: the external `zstd` crate.
`encode level input` is `zstd::stream::Encoder::new(_, level)` +
stream-copy + `finish()`; `decode` is `zstd::stream::copy_decode`. -/
structure ZstdLib where
  encode : Nat → Bytes → Option Bytes
  decode : Bytes → Option Bytes

/-- Modelled from the spec: the `zstd` library's default compression
level, which the adapter deliberately does not use. -/
def zstdDefaultCompressionLevel : Nat := 3

/-! ## The 4-byte little-endian size header used by `lz4_flex` -/

/-- `(n as u32).to_le_bytes()`: the 4-byte little-endian encoding of `n`
(reduced modulo 2^32, as the Rust cast does). -/
def u32le (n : Nat) : Bytes :=
  [n % 256, n / 256 % 256, n / 65536 % 256, n / 16777216 % 256]

/-- `u32::from_le_bytes` on the first four bytes of a buffer. -/
def decodeLe4 (b : Bytes) : Nat :=
  b.getD 0 0 + 256 * b.getD 1 0 + 65536 * b.getD 2 0 + 16777216 * b.getD 3 0

/-- Modelled from the spec: `lz4_flex::compress_prepend_size` prepends
the uncompressed size as a little-endian `u32` header to the compressed
block. -/
def Lz4Lib.compressPrependSize (lib : Lz4Lib) (input : Bytes) : Bytes :=
  u32le input.length ++ lib.block input

/-- Modelled from the spec: `lz4_flex::decompress_size_prepended` reads
the 4-byte size header to pre-size the output buffer, then decompresses
the remaining payload; a missing header is a failure. -/
def Lz4Lib.decompressSizePrepended (lib : Lz4Lib) (input : Bytes) : Option Bytes :=
  if 4 ≤ input.length then
    lib.unblock (decodeLe4 (input.take 4)) (input.drop 4)
  else
    none

/-! ## Library contracts stated by the spec -/

/-- Round-trip fidelity of the brotli codec, for any parameter choice
(spec: round-trip fidelity is mandatory for every adapter). -/
def BrotliLib.RoundTrip (lib : BrotliLib) : Prop :=
  ∀ bs q lg bs' x, (lib.encode bs q lg x).bind (lib.decode bs') = some x

/-- Round-trip fidelity of the gzip codec. -/
def GzipLib.RoundTrip (lib : GzipLib) : Prop :=
  ∀ x, (lib.encode x).bind lib.decode = some x

/-- Round-trip fidelity of the lz4 block layer: decompressing a block
at its true declared size recovers the input. -/
def Lz4Lib.RoundTrip (lib : Lz4Lib) : Prop :=
  ∀ x : Bytes, lib.unblock x.length (lib.block x) = some x

/-- Round-trip fidelity of the snappy codec. -/
def SnappyLib.RoundTrip (lib : SnappyLib) : Prop :=
  ∀ x, (lib.encode x).bind lib.decode = some x

/-- Round-trip fidelity of the zstd codec, at any compression level. -/
def ZstdLib.RoundTrip (lib : ZstdLib) : Prop :=
  ∀ lvl x, (lib.encode lvl x).bind lib.decode = some x

/-! ## `src/compressor.rs`: the adapters -/

/-- `brotli::CompressorWriter` as the adapter uses it: a writer holding
the underlying target buffer, the three constructor parameters, and the
bytes written so far. -/
structure CompressorWriter where
  target : Bytes
  bufferSize : Nat
  quality : Nat
  lgwin : Nat
  buffered : Bytes

/-- `brotli::CompressorWriter::new(target, bufferSize, quality, lgwin)`. -/
def CompressorWriter.new (target : Bytes) (bufferSize quality lgwin : Nat) :
    CompressorWriter :=
  ⟨target, bufferSize, quality, lgwin, []⟩

/-- The net effect of `io::copy(&mut &*input, &mut encoder)`: all of
`input` is written into the encoder. -/
def CompressorWriter.copyFrom (w : CompressorWriter) (input : Bytes) :
    CompressorWriter :=
  { w with buffered := w.buffered ++ input }

/-- `encoder.into_inner()`: finish the stream and recover the target
buffer, now extended with the encoded bytes. -/
def CompressorWriter.intoInner (lib : BrotliLib) (w : CompressorWriter) :
    Option Bytes :=
  (lib.encode w.bufferSize w.quality w.lgwin w.buffered).map (w.target ++ ·)

/-- `pub struct Brotli { pub name: &'static str }` -/
structure Brotli where
  name : String

/-- `Brotli::new()` -/
def Brotli.new : Brotli := ⟨"brotli"⟩

/-- `impl Compressor for Brotli`, `fn compress`. -/
def Brotli.compress (lib : BrotliLib) (_self : Brotli) (input : Bytes) :
    Option Bytes :=
  let target : Bytes := []
  let encoder := CompressorWriter.new target 4096 0 20
  let encoder := encoder.copyFrom input
  encoder.intoInner lib

/-- `impl Compressor for Brotli`, `fn decompress`:
`brotli::Decompressor::new(input, 4096)` read to the end. -/
def Brotli.decompress (lib : BrotliLib) (_self : Brotli) (input : Bytes) :
    Option Bytes :=
  lib.decode 4096 input

/-- `impl Compressor for Brotli`, `fn get_name`. -/
def Brotli.get_name (self : Brotli) : String :=
  self.name

/-- `pub struct Gzip { pub name: &'static str }` -/
structure Gzip where
  name : String

/-- `Gzip::new()` -/
def Gzip.new : Gzip := ⟨"gzip"⟩

/-- `impl Compressor for Gzip`, `fn compress`. -/
def Gzip.compress (lib : GzipLib) (_self : Gzip) (input : Bytes) :
    Option Bytes :=
  lib.encode input

/-- `impl Compressor for Gzip`, `fn decompress`. -/
def Gzip.decompress (lib : GzipLib) (_self : Gzip) (input : Bytes) :
    Option Bytes :=
  lib.decode input

/-- `impl Compressor for Gzip`, `fn get_name`. -/
def Gzip.get_name (self : Gzip) : String :=
  self.name

/-- `pub struct Lz4 { pub name: &'static str }` -/
structure Lz4 where
  name : String

/-- `Lz4::new()` -/
def Lz4.new : Lz4 := ⟨"lz4"⟩

/-- `impl Compressor for Lz4`, `fn compress`:
`lz4_flex::compress_prepend_size(input)` (total, no unwrap). -/
def Lz4.compress (lib : Lz4Lib) (_self : Lz4) (input : Bytes) : Bytes :=
  lib.compressPrependSize input

/-- `impl Compressor for Lz4`, `fn decompress`:
`lz4_flex::decompress_size_prepended(input).unwrap()`. -/
def Lz4.decompress (lib : Lz4Lib) (_self : Lz4) (input : Bytes) :
    Option Bytes :=
  lib.decompressSizePrepended input

/-- `impl Compressor for Lz4`, `fn get_name`. -/
def Lz4.get_name (self : Lz4) : String :=
  self.name

/-- `pub struct Snappy { pub name: &'static str }` -/
structure Snappy where
  name : String

/-- `Snappy::new()` -/
def Snappy.new : Snappy := ⟨"snappy"⟩

/-- `impl Compressor for Snappy`, `fn compress`. -/
def Snappy.compress (lib : SnappyLib) (_self : Snappy) (input : Bytes) :
    Option Bytes :=
  lib.encode input

/-- `impl Compressor for Snappy`, `fn decompress`. -/
def Snappy.decompress (lib : SnappyLib) (_self : Snappy) (input : Bytes) :
    Option Bytes :=
  lib.decode input

/-- `impl Compressor for Snappy`, `fn get_name`. -/
def Snappy.get_name (self : Snappy) : String :=
  self.name

/-- `pub struct Zstd { pub name: &'static str }` -/
structure Zstd where
  name : String

/-- `Zstd::new()` -/
def Zstd.new : Zstd := ⟨"zstd"⟩

/-- `zstd::stream::Encoder` as the adapter uses it: the target buffer,
the explicit compression level, and the bytes written so far. -/
structure ZstdEncoder where
  target : Bytes
  level : Nat
  buffered : Bytes

/-- `zstd::stream::Encoder::new(target, level)` (its `.unwrap()` cannot
change the recorded parameters; failure is absorbed into `finish`). -/
def ZstdEncoder.new (target : Bytes) (level : Nat) : ZstdEncoder :=
  ⟨target, level, []⟩

/-- The net effect of `io::copy(&mut &*input, &mut encoder)`. -/
def ZstdEncoder.copyFrom (e : ZstdEncoder) (input : Bytes) : ZstdEncoder :=
  { e with buffered := e.buffered ++ input }

/-- `encoder.finish().unwrap()`. -/
def ZstdEncoder.finish (lib : ZstdLib) (e : ZstdEncoder) : Option Bytes :=
  (lib.encode e.level e.buffered).map (e.target ++ ·)

/-- `impl Compressor for Zstd`, `fn compress`: level 1 is passed
explicitly ("while level 3 is the default, level 1 seems more fair"). -/
def Zstd.compress (lib : ZstdLib) (_self : Zstd) (input : Bytes) :
    Option Bytes :=
  let target : Bytes := []
  let encoder := ZstdEncoder.new target 1
  let encoder := encoder.copyFrom input
  encoder.finish lib

/-- `impl Compressor for Zstd`, `fn decompress`:
`zstd::stream::copy_decode(input, &mut target)`. -/
def Zstd.decompress (lib : ZstdLib) (_self : Zstd) (input : Bytes) :
    Option Bytes :=
  lib.decode input

/-- `impl Compressor for Zstd`, `fn get_name`. -/
def Zstd.get_name (self : Zstd) : String :=
  self.name

/-! ## `src/main.rs`: command-line dispatch -/

/-- `enum Algorithm` (clap ArgEnum). -/
inductive Algorithm
  | All
  | Brotli
  | Gzip
  | Lz4
  | Snappy
  | Zstd
deriving DecidableEq, Repr

/-- `enum Operation` (clap ArgEnum). -/
inductive Operation
  | Benchmark
  | Compress
  | Decompress
deriving DecidableEq, Repr

/-- `struct Args` (the file path is resolved to the file's content
before the model starts, so it is not recorded here). -/
structure Args where
  algorithm : Algorithm
  operation : Operation
  base64 : Bool
  iterations : Nat

/-- Modelled from the spec: the external `base64` crate with the
`STANDARD` configuration.  `encode` is `base64::write::EncoderWriter`
framing; `decode` is `base64::read::DecoderReader`, failing with `none`
on malformed base64. -/
structure Base64Lib where
  encode : Bytes → Bytes
  decode : Bytes → Option Bytes

/-- The five codec libraries that `main` links against. -/
structure Libs where
  brotli : BrotliLib
  gzip : GzipLib
  lz4 : Lz4Lib
  snappy : SnappyLib
  zstd : ZstdLib

/-- What `main` puts on standard output: the benchmark report, or the
bytes written by a one-shot compress/decompress. -/
inductive MainResult
  | benchmarkReport
  | output (bytes : Bytes)
deriving DecidableEq

/-- The input-reading phase of `main` (`src/main.rs` lines 69-86):
the file content is base64-decoded exactly when the `-b` flag is set
and the operation is `Decompress`; otherwise it is read raw. -/
def readInput (b64 : Base64Lib) (args : Args) (fileContent : Bytes) :
    Option Bytes :=
  match args.base64 with
  | true =>
    match args.operation with
    | Operation.Decompress => b64.decode fileContent
    | _ => some fileContent
  | false => some fileContent

/-- The `Operation::Compress` dispatch over `args.algorithm`
(`src/main.rs` lines 134-141): `Algorithm::All` yields `Vec::new()`. -/
def dispatchCompress (libs : Libs) (alg : Algorithm) (buffer : Bytes) :
    Option Bytes :=
  match alg with
  | Algorithm.All => some []
  | Algorithm.Brotli => Brotli.compress libs.brotli Brotli.new buffer
  | Algorithm.Gzip => Gzip.compress libs.gzip Gzip.new buffer
  | Algorithm.Lz4 => some (Lz4.compress libs.lz4 Lz4.new buffer)
  | Algorithm.Snappy => Snappy.compress libs.snappy Snappy.new buffer
  | Algorithm.Zstd => Zstd.compress libs.zstd Zstd.new buffer

/-- The `Operation::Decompress` dispatch over `args.algorithm`
(`src/main.rs` lines 149-156). -/
def dispatchDecompress (libs : Libs) (alg : Algorithm) (buffer : Bytes) :
    Option Bytes :=
  match alg with
  | Algorithm.All => some []
  | Algorithm.Brotli => Brotli.decompress libs.brotli Brotli.new buffer
  | Algorithm.Gzip => Gzip.decompress libs.gzip Gzip.new buffer
  | Algorithm.Lz4 => Lz4.decompress libs.lz4 Lz4.new buffer
  | Algorithm.Snappy => Snappy.decompress libs.snappy Snappy.new buffer
  | Algorithm.Zstd => Zstd.decompress libs.zstd Zstd.new buffer

/-- `fn main`, with the file content given: read the input buffer, then
branch on the operation.  `Benchmark` prints a report (its text is not
modelled); `Compress` writes the compressed bytes, base64-encoded when
the flag is set; `Decompress` writes the decompressed bytes raw
(`src/main.rs` line 157 never consults the flag). -/
def mainRun (libs : Libs) (b64 : Base64Lib) (args : Args)
    (fileContent : Bytes) : Option MainResult :=
  (readInput b64 args fileContent).bind fun buffer =>
    match args.operation with
    | Operation.Benchmark => some MainResult.benchmarkReport
    | Operation.Compress =>
      (dispatchCompress libs args.algorithm buffer).bind fun compressed =>
        some (MainResult.output
          (if args.base64 then b64.encode compressed else compressed))
    | Operation.Decompress =>
      (dispatchDecompress libs args.algorithm buffer).bind fun decompressed =>
        some (MainResult.output decompressed)

/-! ## Concrete instantiations of the external libraries

Trivial codecs satisfying the spec's library contracts, used only to
witness that the contract hypotheses are satisfiable. -/

/-- A trivial brotli instantiation: the identity codec. -/
def idBrotliLib : BrotliLib :=
  ⟨fun _ _ _ x => some x, fun _ x => some x⟩

/-- A trivial gzip instantiation: the identity codec. -/
def idGzipLib : GzipLib :=
  ⟨fun x => some x, fun x => some x⟩

/-- A trivial lz4 block layer: the identity block, with the declared
size checked on decompression (as `lz4_flex` does). -/
def idLz4Lib : Lz4Lib :=
  ⟨fun x => x, fun n p => if p.length = n then some p else none⟩

/-- A trivial snappy instantiation: the identity codec. -/
def idSnappyLib : SnappyLib :=
  ⟨fun x => some x, fun x => some x⟩

/-- A trivial zstd instantiation: the identity codec. -/
def idZstdLib : ZstdLib :=
  ⟨fun _ x => some x, fun x => some x⟩

/-- The trivial codecs, bundled. -/
def idLibs : Libs :=
  ⟨idBrotliLib, idGzipLib, idLz4Lib, idSnappyLib, idZstdLib⟩

/-- A trivial base64 instantiation: identity framing. -/
def idBase64Lib : Base64Lib :=
  ⟨fun x => x, fun x => some x⟩

/-- The 11-byte ASCII input "hello world" of the spec's scenario. -/
def helloWorld : Bytes :=
  [104, 101, 108, 108, 111, 32, 119, 111, 114, 108, 100]

/-- A 2^32-byte buffer of zeros: the smallest input whose length does
not fit the Lz4 frame format's 4-byte size header. -/
def bigZeros : Bytes :=
  List.replicate 4294967296 0

/-! ## Helper lemmas -/

/-- Reading back the 4-byte little-endian header recovers any length
below `2^32`. -/
theorem decodeLe4_u32le (n : Nat) (h : n < 4294967296) :
    decodeLe4 (u32le n) = n := by
  simp only [decodeLe4, u32le, List.getD_cons_zero, List.getD_cons_succ]
  omega

/-- The size header is always exactly four bytes long. -/
theorem u32le_length (n : Nat) : (u32le n).length = 4 := rfl

/-- The length of the 2^32-byte buffer, without materialising it. -/
theorem bigZeros_length : bigZeros.length = 4294967296 := by
  show (List.replicate 4294967296 (0 : Nat)).length = 4294967296
  exact List.length_replicate _ _

/-- Compressing the 2^32-byte buffer with the trivial lz4 block layer:
the header records the length reduced modulo 2^32. -/
theorem bigZeros_compress :
    Lz4.compress idLz4Lib Lz4.new bigZeros
      = u32le 4294967296 ++ bigZeros := by
  simp only [Lz4.compress, Lz4Lib.compressPrependSize, idLz4Lib,
    bigZeros_length]

/-- Brotli adapter round trip, given the library contract. -/
theorem brotli_roundTrip_aux (bl : BrotliLib) (hb : bl.RoundTrip)
    (a : Brotli) (x : Bytes) :
    (Brotli.compress bl a x).bind (Brotli.decompress bl a) = some x := by
  have h := hb 4096 0 20 4096 x
  simp only [Brotli.compress, Brotli.decompress, CompressorWriter.new,
    CompressorWriter.copyFrom, CompressorWriter.intoInner, List.nil_append]
  cases hc : bl.encode 4096 0 20 x with
  | none => rw [hc] at h; simp at h
  | some c => rw [hc] at h; simpa using h

/-- Gzip adapter round trip, given the library contract. -/
theorem gzip_roundTrip_aux (gl : GzipLib) (hg : gl.RoundTrip)
    (a : Gzip) (x : Bytes) :
    (Gzip.compress gl a x).bind (Gzip.decompress gl a) = some x :=
  hg x

/-- Lz4 adapter round trip, given the block-layer contract, for any
input whose length fits the 4-byte size header. -/
theorem lz4_roundTrip_aux (ll : Lz4Lib) (hl : ll.RoundTrip)
    (a : Lz4) (x : Bytes) (h : x.length < 4294967296) :
    Lz4.decompress ll a (Lz4.compress ll a x) = some x := by
  simp only [Lz4.compress, Lz4.decompress, Lz4Lib.compressPrependSize,
    Lz4Lib.decompressSizePrepended]
  rw [List.take_left' (u32le_length x.length),
    List.drop_left' (u32le_length x.length), decodeLe4_u32le x.length h]
  rw [if_pos (by simp [List.length_append, u32le_length])]
  exact hl x

/-- Snappy adapter round trip, given the library contract. -/
theorem snappy_roundTrip_aux (sl : SnappyLib) (hs : sl.RoundTrip)
    (a : Snappy) (x : Bytes) :
    (Snappy.compress sl a x).bind (Snappy.decompress sl a) = some x :=
  hs x

/-- Zstd adapter round trip, given the library contract. -/
theorem zstd_roundTrip_aux (zl : ZstdLib) (hz : zl.RoundTrip)
    (a : Zstd) (x : Bytes) :
    (Zstd.compress zl a x).bind (Zstd.decompress zl a) = some x := by
  have h := hz 1 x
  simp only [Zstd.compress, Zstd.decompress, ZstdEncoder.new,
    ZstdEncoder.copyFrom, ZstdEncoder.finish, List.nil_append]
  cases hc : zl.encode 1 x with
  | none => rw [hc] at h; simp at h
  | some c => rw [hc] at h; simpa using h

/-- The trivial brotli codec satisfies the round-trip contract. -/
theorem idBrotliLib_roundTrip : idBrotliLib.RoundTrip := by
  intro bs q lg bs' x
  simp [idBrotliLib]

/-- The trivial gzip codec satisfies the round-trip contract. -/
theorem idGzipLib_roundTrip : idGzipLib.RoundTrip := by
  intro x
  simp [idGzipLib]

/-- The trivial lz4 block layer satisfies the round-trip contract. -/
theorem idLz4Lib_roundTrip : idLz4Lib.RoundTrip := by
  intro x
  simp [idLz4Lib]

/-- The trivial snappy codec satisfies the round-trip contract. -/
theorem idSnappyLib_roundTrip : idSnappyLib.RoundTrip := by
  intro x
  simp [idSnappyLib]

/-- The trivial zstd codec satisfies the round-trip contract. -/
theorem idZstdLib_roundTrip : idZstdLib.RoundTrip := by
  intro lvl x
  simp [idZstdLib]

/-! ## The claims -/

/-- Claim C1: for every adapter A in (Brotli, Gzip, Lz4, Snappy, Zstd)
and every byte sequence x (including the empty sequence),
`A.decompress(A.compress(x)) == x`, given the round-trip contracts of
the underlying codec libraries.  For Lz4 the input length must fit the
4-byte size header its frame format stores. -/
theorem compress_decompress_roundTrip
    (bl : BrotliLib) (gl : GzipLib) (ll : Lz4Lib) (sl : SnappyLib)
    (zl : ZstdLib) (hb : bl.RoundTrip) (hg : gl.RoundTrip)
    (hl : ll.RoundTrip) (hs : sl.RoundTrip) (hz : zl.RoundTrip) :
    (∀ (a : Brotli) (x : Bytes),
      (Brotli.compress bl a x).bind (Brotli.decompress bl a) = some x) ∧
    (∀ (a : Gzip) (x : Bytes),
      (Gzip.compress gl a x).bind (Gzip.decompress gl a) = some x) ∧
    (∀ (a : Lz4) (x : Bytes), x.length < 4294967296 →
      Lz4.decompress ll a (Lz4.compress ll a x) = some x) ∧
    (∀ (a : Snappy) (x : Bytes),
      (Snappy.compress sl a x).bind (Snappy.decompress sl a) = some x) ∧
    (∀ (a : Zstd) (x : Bytes),
      (Zstd.compress zl a x).bind (Zstd.decompress zl a) = some x) :=
  ⟨brotli_roundTrip_aux bl hb, gzip_roundTrip_aux gl hg,
   fun a x h => lz4_roundTrip_aux ll hl a x h,
   snappy_roundTrip_aux sl hs, zstd_roundTrip_aux zl hz⟩

/-- Witness for C1: the round trip holds concretely on the spec's
"hello world" input under the trivial codec instantiations. -/
theorem compress_decompress_roundTrip_witness :
    (Brotli.compress idBrotliLib Brotli.new helloWorld).bind
      (Brotli.decompress idBrotliLib Brotli.new) = some helloWorld ∧
    Lz4.decompress idLz4Lib Lz4.new
      (Lz4.compress idLz4Lib Lz4.new helloWorld) = some helloWorld := by
  have h := compress_decompress_roundTrip idBrotliLib idGzipLib idLz4Lib
    idSnappyLib idZstdLib idBrotliLib_roundTrip idGzipLib_roundTrip
    idLz4Lib_roundTrip idSnappyLib_roundTrip idZstdLib_roundTrip
  exact ⟨h.1 Brotli.new helloWorld,
    h.2.2.1 Lz4.new helloWorld (by decide)⟩

/-- Counterexample to C1 as stated: Lz4's 4-byte size header stores
the length modulo 2^32, so on a 2^32-byte input the recorded size is 0
and decompression fails (the Rust `unwrap` panics) instead of
returning the input. -/
theorem compress_decompress_roundTrip_counterexample :
    Lz4.decompress idLz4Lib Lz4.new
      (Lz4.compress idLz4Lib Lz4.new bigZeros) ≠ some bigZeros := by
  rw [bigZeros_compress]
  simp only [Lz4.decompress, Lz4Lib.decompressSizePrepended]
  rw [if_pos
    (by rw [List.length_append, u32le_length]; exact Nat.le_add_right 4 _)]
  rw [List.take_left' (u32le_length 4294967296),
    List.drop_left' (u32le_length 4294967296)]
  have hdec : decodeLe4 (u32le 4294967296) = 0 := by decide
  rw [hdec]
  simp only [idLz4Lib]
  rw [if_neg (by rw [bigZeros_length]; decide)]
  exact fun h => Option.noConfusion h

/-- Claim C2: for every adapter, compressing the zero-length byte
sequence does not fail (it returns normally with some buffer), and
decompressing that buffer returns the zero-length byte sequence, given
the round-trip contracts of the underlying codec libraries.  (Lz4's
compress is total by construction.) -/
theorem compress_empty_input
    (bl : BrotliLib) (gl : GzipLib) (ll : Lz4Lib) (sl : SnappyLib)
    (zl : ZstdLib) (hb : bl.RoundTrip) (hg : gl.RoundTrip)
    (hl : ll.RoundTrip) (hs : sl.RoundTrip) (hz : zl.RoundTrip) :
    (∃ c, Brotli.compress bl Brotli.new [] = some c ∧
      Brotli.decompress bl Brotli.new c = some []) ∧
    (∃ c, Gzip.compress gl Gzip.new [] = some c ∧
      Gzip.decompress gl Gzip.new c = some []) ∧
    Lz4.decompress ll Lz4.new (Lz4.compress ll Lz4.new []) = some [] ∧
    (∃ c, Snappy.compress sl Snappy.new [] = some c ∧
      Snappy.decompress sl Snappy.new c = some []) ∧
    (∃ c, Zstd.compress zl Zstd.new [] = some c ∧
      Zstd.decompress zl Zstd.new c = some []) := by
  refine ⟨?_, ?_, ?_, ?_, ?_⟩
  · exact Option.bind_eq_some.mp (brotli_roundTrip_aux bl hb Brotli.new [])
  · exact Option.bind_eq_some.mp (gzip_roundTrip_aux gl hg Gzip.new [])
  · exact lz4_roundTrip_aux ll hl Lz4.new [] (by decide)
  · exact Option.bind_eq_some.mp (snappy_roundTrip_aux sl hs Snappy.new [])
  · exact Option.bind_eq_some.mp (zstd_roundTrip_aux zl hz Zstd.new [])

/-- Witness for C2: the empty-input property holds concretely under
the trivial codec instantiations. -/
theorem compress_empty_input_witness :
    (∃ c, Brotli.compress idBrotliLib Brotli.new [] = some c ∧
      Brotli.decompress idBrotliLib Brotli.new c = some []) ∧
    (∃ c, Gzip.compress idGzipLib Gzip.new [] = some c ∧
      Gzip.decompress idGzipLib Gzip.new c = some []) ∧
    Lz4.decompress idLz4Lib Lz4.new
      (Lz4.compress idLz4Lib Lz4.new []) = some [] ∧
    (∃ c, Snappy.compress idSnappyLib Snappy.new [] = some c ∧
      Snappy.decompress idSnappyLib Snappy.new c = some []) ∧
    (∃ c, Zstd.compress idZstdLib Zstd.new [] = some c ∧
      Zstd.decompress idZstdLib Zstd.new c = some []) :=
  compress_empty_input idBrotliLib idGzipLib idLz4Lib idSnappyLib idZstdLib
    idBrotliLib_roundTrip idGzipLib_roundTrip idLz4Lib_roundTrip
    idSnappyLib_roundTrip idZstdLib_roundTrip

/-- Claim C3: for the Lz4 adapter, the output of compress begins with
a 4-byte little-endian length field whose decoded value is the input
length (stated for lengths representable in the 4-byte header, which
covers the spec's 11-byte "hello world" scenario). -/
theorem lz4_size_header (ll : Lz4Lib) (a : Lz4) (x : Bytes)
    (h : x.length < 4294967296) :
    (Lz4.compress ll a x).take 4 = u32le x.length ∧
    decodeLe4 ((Lz4.compress ll a x).take 4) = x.length := by
  have htake : (Lz4.compress ll a x).take 4 = u32le x.length := by
    simp only [Lz4.compress, Lz4Lib.compressPrependSize]
    exact List.take_left' (u32le_length x.length)
  exact ⟨htake, by rw [htake]; exact decodeLe4_u32le x.length h⟩

/-- Witness for C3: on the 11-byte ASCII "hello world" the first four
bytes of the Lz4 compress output decode to 11. -/
theorem lz4_size_header_witness :
    decodeLe4 ((Lz4.compress idLz4Lib Lz4.new helloWorld).take 4) = 11 :=
  (lz4_size_header idLz4Lib Lz4.new helloWorld (by decide)).2

/-- Counterexample to C3 as stated: on a 2^32-byte input the 4-byte
little-endian header decodes to 0, not to the input length. -/
theorem lz4_size_header_counterexample :
    decodeLe4 ((Lz4.compress idLz4Lib Lz4.new bigZeros).take 4)
      ≠ bigZeros.length := by
  rw [bigZeros_compress, List.take_left' (u32le_length 4294967296),
    bigZeros_length]
  decide

/-- Claim C4: for every adapter, compress is a deterministic function
of its input: two invocations on equal inputs (on instances built by
`new`) produce byte-identical output.  (The codec libraries are
modelled as pure functions, as the spec's determinism note fixes their
parameters precisely to guarantee.) -/
theorem compress_deterministic (libs : Libs) (x y : Bytes) (h : x = y) :
    Brotli.compress libs.brotli Brotli.new x
      = Brotli.compress libs.brotli Brotli.new y ∧
    Gzip.compress libs.gzip Gzip.new x
      = Gzip.compress libs.gzip Gzip.new y ∧
    Lz4.compress libs.lz4 Lz4.new x = Lz4.compress libs.lz4 Lz4.new y ∧
    Snappy.compress libs.snappy Snappy.new x
      = Snappy.compress libs.snappy Snappy.new y ∧
    Zstd.compress libs.zstd Zstd.new x
      = Zstd.compress libs.zstd Zstd.new y := by
  subst h
  exact ⟨rfl, rfl, rfl, rfl, rfl⟩

/-- Witness for C4: determinism instantiated on "hello world" under the
trivial codec instantiations. -/
theorem compress_deterministic_witness :
    Brotli.compress idLibs.brotli Brotli.new helloWorld
      = Brotli.compress idLibs.brotli Brotli.new helloWorld ∧
    Gzip.compress idLibs.gzip Gzip.new helloWorld
      = Gzip.compress idLibs.gzip Gzip.new helloWorld ∧
    Lz4.compress idLibs.lz4 Lz4.new helloWorld
      = Lz4.compress idLibs.lz4 Lz4.new helloWorld ∧
    Snappy.compress idLibs.snappy Snappy.new helloWorld
      = Snappy.compress idLibs.snappy Snappy.new helloWorld ∧
    Zstd.compress idLibs.zstd Zstd.new helloWorld
      = Zstd.compress idLibs.zstd Zstd.new helloWorld :=
  compress_deterministic idLibs helloWorld helloWorld rfl

/-- Claim C5: each adapter built by its `new` constructor reports its
constant name ("brotli", "gzip", "lz4", "snappy", "zstd"); `get_name`
is a pure projection, so the value is the same across any number of
calls and instantiations. -/
theorem get_name_constant :
    Brotli.new.get_name = "brotli" ∧ Gzip.new.get_name = "gzip" ∧
    Lz4.new.get_name = "lz4" ∧ Snappy.new.get_name = "snappy" ∧
    Zstd.new.get_name = "zstd" :=
  ⟨rfl, rfl, rfl, rfl, rfl⟩

/-- Claim C6: Brotli's compress always drives the library encoder
constructed with buffer size 4096, quality 0 and window bits 20, for
every input and every instance. -/
theorem brotli_encoder_params (lib : BrotliLib) (a : Brotli)
    (input : Bytes) :
    Brotli.compress lib a input = lib.encode 4096 0 20 input := by
  simp only [Brotli.compress, CompressorWriter.new,
    CompressorWriter.copyFrom, CompressorWriter.intoInner,
    List.nil_append]
  cases lib.encode 4096 0 20 input <;> simp

/-- Claim C7: Zstd's compress always drives the library encoder
constructed with explicit compression level 1, which is below the
library default of 3, for every input and every instance. -/
theorem zstd_encoder_level (lib : ZstdLib) (a : Zstd) (input : Bytes) :
    Zstd.compress lib a input = lib.encode 1 input ∧
    1 < zstdDefaultCompressionLevel := by
  constructor
  · simp only [Zstd.compress, ZstdEncoder.new, ZstdEncoder.copyFrom,
      ZstdEncoder.finish, List.nil_append]
    cases lib.encode 1 input <;> simp
  · decide

/-- Claim C8: compress and decompress of every adapter ignore the
instance's state (its name field), so a freshly constructed instance
and any reused instance return equal results on every input. -/
theorem adapters_stateless (libs : Libs) (x : Bytes)
    (ab : Brotli) (ag : Gzip) (al : Lz4) (an : Snappy) (az : Zstd) :
    (Brotli.compress libs.brotli ab x
        = Brotli.compress libs.brotli Brotli.new x ∧
      Brotli.decompress libs.brotli ab x
        = Brotli.decompress libs.brotli Brotli.new x) ∧
    (Gzip.compress libs.gzip ag x = Gzip.compress libs.gzip Gzip.new x ∧
      Gzip.decompress libs.gzip ag x
        = Gzip.decompress libs.gzip Gzip.new x) ∧
    (Lz4.compress libs.lz4 al x = Lz4.compress libs.lz4 Lz4.new x ∧
      Lz4.decompress libs.lz4 al x = Lz4.decompress libs.lz4 Lz4.new x) ∧
    (Snappy.compress libs.snappy an x
        = Snappy.compress libs.snappy Snappy.new x ∧
      Snappy.decompress libs.snappy an x
        = Snappy.decompress libs.snappy Snappy.new x) ∧
    (Zstd.compress libs.zstd az x = Zstd.compress libs.zstd Zstd.new x ∧
      Zstd.decompress libs.zstd az x
        = Zstd.decompress libs.zstd Zstd.new x) :=
  ⟨⟨rfl, rfl⟩, ⟨rfl, rfl⟩, ⟨rfl, rfl⟩, ⟨rfl, rfl⟩, ⟨rfl, rfl⟩⟩

/-- Claim C9: when the selected algorithm is `All` and the operation is
`Compress` or `Decompress`, `main` writes zero bytes to standard output
(the result buffer is `Vec::new()`), rather than failing or running any
algorithm.  The hypotheses record that the input-reading phase
succeeded and that base64-encoding an empty buffer is empty. -/
theorem algorithm_all_empty_output (libs : Libs) (b64 : Base64Lib)
    (args : Args) (fileContent buffer : Bytes)
    (halg : args.algorithm = Algorithm.All)
    (hop : args.operation = Operation.Compress ∨
      args.operation = Operation.Decompress)
    (henc : b64.encode [] = [])
    (hread : readInput b64 args fileContent = some buffer) :
    mainRun libs b64 args fileContent = some (MainResult.output []) := by
  unfold mainRun
  rw [hread]
  rcases hop with h | h <;>
    simp [h, halg, dispatchCompress, dispatchDecompress, henc]

/-- Witness for C9: concretely, compressing "hello world" with the
algorithm `All` selected outputs the empty byte sequence. -/
theorem algorithm_all_empty_output_witness :
    mainRun idLibs idBase64Lib
      ⟨Algorithm.All, Operation.Compress, false, 25⟩ helloWorld
      = some (MainResult.output []) :=
  algorithm_all_empty_output idLibs idBase64Lib
    ⟨Algorithm.All, Operation.Compress, false, 25⟩ helloWorld helloWorld
    rfl (Or.inl rfl) rfl rfl

/-- Claim C10: the base64 flag is asymmetric.  With the flag set, the
input file is base64-decoded only for `Decompress` (for `Compress` and
`Benchmark` it is read raw), and the output is base64-encoded only for
`Compress` (`Decompress` writes its result bytes raw even with the
flag set). -/
theorem base64_flag_asymmetry (libs : Libs) (b64 : Base64Lib)
    (alg : Algorithm) (it : Nat) (content : Bytes) :
    readInput b64 ⟨alg, Operation.Decompress, true, it⟩ content
      = b64.decode content ∧
    readInput b64 ⟨alg, Operation.Compress, true, it⟩ content
      = some content ∧
    readInput b64 ⟨alg, Operation.Benchmark, true, it⟩ content
      = some content ∧
    mainRun libs b64 ⟨alg, Operation.Compress, true, it⟩ content
      = (dispatchCompress libs alg content).bind
          (fun c => some (MainResult.output (b64.encode c))) ∧
    mainRun libs b64 ⟨alg, Operation.Decompress, true, it⟩ content
      = (b64.decode content).bind (fun buffer =>
          (dispatchDecompress libs alg buffer).bind
            (fun d => some (MainResult.output d))) :=
  ⟨rfl, rfl, rfl, rfl, rfl⟩

end Cram
